import Mathlib

/-!
Verification of the chaperoned TCP gateway's per-connection machinery.

This file shallowly embeds the per-connection workers of chaperoned
(the Client Reader, the Guardian Decision Reader, the Stream Writer,
the Response Pumps, the Supervisor event loop of `Handle`, and the
accept loop of `main`) as executable Lean functions, and proves the
specification's claims about them.

Conventions of the embedding:
- A socket read is modelled by the pair of the bytes it delivered and
  whether an error accompanied the read (`ReadResult`); bytes are `Nat`.
- A socket write is modelled by an oracle entry `WriteRes` giving the
  count of bytes the socket accepted and whether the call errored; a
  worker's sequence of write calls consumes a finite oracle list, and
  exhausting the oracle while a loop still runs is reported as a
  stalled/stuck outcome (the loop did not finish within the supplied
  steps).
- Channel traffic is modelled by the lists of messages a worker emits
  or consumes; a worker blocked on a channel with no further input is
  reported as a blocked outcome.
- The Supervisor's `select` loop is modelled as a fold over the finite
  list of events (decisions and feedback messages) it receives, in
  arrival order, recording the actions it performs (socket closes,
  pump starts, the registry notification).
-/

namespace Chaperoned

/-- Verdict values, from `type GuardianDecision int` with the constants
`GDError`, `GDPassToProxee`, `GDPassToGuardian`. -/
inductive GuardianDecision where
  | GDError
  | GDPassToProxee
  | GDPassToGuardian
deriving DecidableEq, Repr

/-- Worker feedback values, from `type WorkerFeedback int` with the
constants `WFFatalError` and `WFDoNotWriteToGuardian`. -/
inductive WorkerFeedback where
  | WFFatalError
  | WFDoNotWriteToGuardian
deriving DecidableEq, Repr

/-- Result of one `csock.Read(buffer)` call: the byte slice delivered
(`data`, so `nread = data.length`) and whether an error accompanied
the read. -/
structure ReadResult where
  data : List Nat
  err : Bool
deriving DecidableEq, Repr

/-- An action performed by the Client Reader: sending a buffer on
`client_buffers_chan`, sending on `feedback_chan`, or closing
`client_buffers_chan` (its deferred `close`). -/
inductive CRAction where
  | sendBuffer (buf : List Nat)
  | sendFeedback (f : WorkerFeedback)
  | closeBuffersChan
deriving DecidableEq, Repr

/-- The Client Reader (`RunClientReader`): for each read, if zero bytes
came back it reports `WFFatalError` and returns (the deferred close of
`client_buffers_chan` then runs); otherwise it forwards the exact slice
`buffer[:nread]`, and if the read also carried an error it reports
`WFFatalError` and returns. An exhausted input list leaves the reader
blocked in `csock.Read` having performed no further action. -/
def RunClientReader : List ReadResult → List CRAction
  | [] => []
  | r :: rs =>
    if r.data.length = 0 then
      [CRAction.sendFeedback WorkerFeedback.WFFatalError, CRAction.closeBuffersChan]
    else if r.err then
      [CRAction.sendBuffer r.data, CRAction.sendFeedback WorkerFeedback.WFFatalError,
        CRAction.closeBuffersChan]
    else
      CRAction.sendBuffer r.data :: RunClientReader rs

/-- The buffers the Client Reader sends on `client_buffers_chan`, in
order. -/
def sentBuffers (reads : List ReadResult) : List (List Nat) :=
  (RunClientReader reads).filterMap fun a =>
    match a with
    | CRAction.sendBuffer b => some b
    | _ => none

/-- Result of the Guardian Decision Reader's single one-byte
`gsock.Read`: the count of bytes read (`nread`, 0 or 1), the byte left
in `buffer[0]` when one was read, and whether an error accompanied the
read. -/
structure GuardianRead where
  nread : Nat
  b : Nat
  err : Bool
deriving DecidableEq, Repr

/-- The Guardian Decision Reader (`RunGuardianDecisionReader`): one
read of one byte; `nread == 0` yields `GDError`, byte 103 (ASCII g)
yields `GDPassToGuardian`, byte 112 (ASCII p) yields `GDPassToProxee`,
any other byte yields `GDError`.  The returned list is what it sends on
`guardian_decision_chan`.  Note the code never inspects `err` once a
byte arrived. -/
def RunGuardianDecisionReader (r : GuardianRead) : List GuardianDecision :=
  if r.nread = 0 then [GuardianDecision.GDError]
  else if r.b = 103 then [GuardianDecision.GDPassToGuardian]
  else if r.b = 112 then [GuardianDecision.GDPassToProxee]
  else [GuardianDecision.GDError]

/-- Result of one socket `Write` call: the count of bytes the socket
accepted and whether the call returned an error.  (On an errored call
the code ignores the count, exactly as `RunWriter` does.) -/
structure WriteRes where
  n : Nat
  err : Bool
deriving DecidableEq, Repr

/-- How one partial-write loop of `RunWriter` ended: the buffer was
fully written (`completed`), a write call errored (`errored`), or the
supplied oracle ran out while the loop still had bytes to write
(`stuck`: the loop did not finish within the given number of write
calls). -/
inductive LoopExit where
  | completed
  | errored
  | stuck
deriving DecidableEq, Repr

/-- Result of one partial-write loop: the bytes the socket accepted, in
order, the unconsumed remainder of the write oracle, and how the loop
ended. -/
structure LoopResult where
  sent : List Nat
  rest : List WriteRes
  exit : LoopExit
deriving DecidableEq, Repr

/-- One partial-write loop of `RunWriter`:
`for flag && offset != len(buffer) { nwritten, err := sock.Write(buffer[offset:]); ... ; offset += nwritten }`.
Each iteration consumes one oracle entry; an error breaks out of the
loop; otherwise the socket accepted the first `w.n` bytes of
`buffer[offset:]` and the offset advances by `w.n`. -/
def writeLoop (buffer : List Nat) : Nat → List WriteRes → LoopResult
  | offset, [] =>
    if offset = buffer.length then ⟨[], [], LoopExit.completed⟩
    else ⟨[], [], LoopExit.stuck⟩
  | offset, w :: rest =>
    if offset = buffer.length then ⟨[], w :: rest, LoopExit.completed⟩
    else if w.err then ⟨[], rest, LoopExit.errored⟩
    else
      let r := writeLoop buffer (offset + w.n) rest
      ⟨(buffer.drop offset).take w.n ++ r.sent, r.rest, r.exit⟩

/-- State of the Stream Writer: the two write flags and the two write
oracles (answers the guardian socket and the proxee socket will give to
its `Write` calls). -/
structure WriterState where
  wg : Bool
  wp : Bool
  gOracle : List WriteRes
  pOracle : List WriteRes
deriving DecidableEq, Repr

/-- How `RunWriter` ended: it saw `client_buffers_chan` closed
(`channelClosed`), a proxee write errored so it returned
(`proxeeError`), both write flags were down at the top of the loop
(`flagsDown`), the supplied buffer list ran out with the writer blocked
receiving (`blocked`), or a write oracle ran out mid-loop
(`stalled`). -/
inductive WriterExit where
  | channelClosed
  | proxeeError
  | flagsDown
  | blocked
  | stalled
deriving DecidableEq, Repr

/-- Result of a `RunWriter` run: the bytes the guardian socket
accepted, the bytes the proxee socket accepted, the feedback messages
sent, how the writer ended, and the final write flags. -/
structure WriterResult where
  gBytes : List Nat
  pBytes : List Nat
  feedback : List WorkerFeedback
  exit : WriterExit
  wg : Bool
  wp : Bool
deriving DecidableEq, Repr

/-- The Stream Writer (`RunWriter`), run on the list of buffers it will
receive from `client_buffers_chan` (with `closed` telling whether the
channel is closed after them).  Per buffer: while `write_to_guardian`,
the partial-write loop against `gsock`; on error it clears
`write_to_guardian`, sends `WFDoNotWriteToGuardian` and breaks.  Then,
while `write_to_proxee`, the same loop against `psock`; on error it
logs and returns — sending nothing on `feedback_chan`.  The outer loop
runs while either flag is set. -/
def RunWriter (st : WriterState) : List (List Nat) → Bool → WriterResult
  | buffers, closed =>
    if st.wg = false ∧ st.wp = false then
      ⟨[], [], [], WriterExit.flagsDown, st.wg, st.wp⟩
    else
      match buffers with
      | [] =>
        if closed then ⟨[], [], [], WriterExit.channelClosed, st.wg, st.wp⟩
        else ⟨[], [], [], WriterExit.blocked, st.wg, st.wp⟩
      | buffer :: rest =>
        let g :=
          if st.wg then writeLoop buffer 0 st.gOracle
          else ⟨[], st.gOracle, LoopExit.completed⟩
        if g.exit = LoopExit.stuck then
          ⟨g.sent, [], [], WriterExit.stalled, st.wg, st.wp⟩
        else
          let wg' := if g.exit = LoopExit.errored then false else st.wg
          let fb :=
            if g.exit = LoopExit.errored then [WorkerFeedback.WFDoNotWriteToGuardian]
            else []
          let p :=
            if st.wp then writeLoop buffer 0 st.pOracle
            else ⟨[], st.pOracle, LoopExit.completed⟩
          if p.exit = LoopExit.stuck then
            ⟨g.sent, p.sent, fb, WriterExit.stalled, wg', st.wp⟩
          else if p.exit = LoopExit.errored then
            ⟨g.sent, p.sent, fb, WriterExit.proxeeError, wg', st.wp⟩
          else
            let res := RunWriter ⟨wg', st.wp, g.rest, p.rest⟩ rest closed
            ⟨g.sent ++ res.gBytes, p.sent ++ res.pBytes, fb ++ res.feedback,
              res.exit, res.wg, res.wp⟩

/-- An event the Supervisor's `select` receives: a verdict on
`guardian_decision_chan` or a message on `feedback_chan`. -/
inductive Event where
  | decision (d : GuardianDecision)
  | feedback (f : WorkerFeedback)
deriving DecidableEq, Repr

/-- An action the Supervisor (`Handle`) performs: closing a socket,
starting a Response Pump, or sending the connection id on
`conn_closed_chan` (its first-registered, hence last-run, defer). -/
inductive SupAction where
  | closeGsock
  | closePsock
  | closeCsock
  | startProxeePump
  | startGuardianPump
  | sendConnClosed
deriving DecidableEq, Repr

/-- The teardown actions of `Handle`, in the order its defers run
(LIFO): close `gsock`, close `psock`, close `csock`, then notify the
accept loop on `conn_closed_chan`. -/
def teardown : List SupAction :=
  [SupAction.closeGsock, SupAction.closePsock, SupAction.closeCsock,
    SupAction.sendConnClosed]

/-- Result of the Supervisor's event loop: whether it returned
(`terminated = false` means the event list ran out with the loop still
blocked in `select`), the actions performed in order, and the final
write flags. -/
structure SupResult where
  terminated : Bool
  actions : List SupAction
  wg : Bool
  wp : Bool
deriving DecidableEq, Repr

/-- The Supervisor's event loop from `Handle`, processing events in
arrival order with the current write flags.  `GDError` and
`WFFatalError` return at once (running the deferred teardown);
`GDPassToProxee` clears `write_to_guardian`, closes `gsock` and starts
the proxee pump; `GDPassToGuardian` clears `write_to_proxee`, closes
`psock` and starts the guardian pump; `WFDoNotWriteToGuardian` clears
`write_to_guardian`.  After each event, if both flags are down the
loop returns. -/
def HandleLoop (wg wp : Bool) : List Event → SupResult
  | [] => ⟨false, [], wg, wp⟩
  | Event.decision GuardianDecision.GDError :: _ =>
    ⟨true, teardown, wg, wp⟩
  | Event.feedback WorkerFeedback.WFFatalError :: _ =>
    ⟨true, teardown, wg, wp⟩
  | Event.decision GuardianDecision.GDPassToProxee :: es =>
    if wp = false then
      ⟨true, SupAction.closeGsock :: SupAction.startProxeePump :: teardown, false, wp⟩
    else
      let r := HandleLoop false wp es
      ⟨r.terminated, SupAction.closeGsock :: SupAction.startProxeePump :: r.actions,
        r.wg, r.wp⟩
  | Event.decision GuardianDecision.GDPassToGuardian :: es =>
    if wg = false then
      ⟨true, SupAction.closePsock :: SupAction.startGuardianPump :: teardown, wg, false⟩
    else
      let r := HandleLoop wg false es
      ⟨r.terminated, SupAction.closePsock :: SupAction.startGuardianPump :: r.actions,
        r.wg, r.wp⟩
  | Event.feedback WorkerFeedback.WFDoNotWriteToGuardian :: es =>
    if wp = false then
      ⟨true, teardown, false, wp⟩
    else
      let r := HandleLoop false wp es
      ⟨r.terminated, r.actions, r.wg, r.wp⟩

/-- The Supervisor event loop as `Handle` enters it: both write flags
start true (set at `Connection` creation in `main`). -/
def Handle (events : List Event) : SupResult :=
  HandleLoop true true events

/-- Outcome of a Response Pump's `io.Copy` from its backend to the
client: the bytes copied to `csock` and whether the copy ended in an
error. -/
structure PumpRun where
  copied : List Nat
  err : Bool
deriving DecidableEq, Repr

/-- The feedback a Response Pump sends: `WFFatalError` on a copy error,
nothing on clean end-of-stream (where it half-closes `csock` and
returns). -/
def pumpFeedback (p : PumpRun) : List WorkerFeedback :=
  if p.err then [WorkerFeedback.WFFatalError] else []

/-- The bytes written to the client socket during a connection: the
Response Pumps are the only writers of `csock`, so these are the bytes
copied by whichever pump the Supervisor started (none, if none was
started). -/
def clientBytes (r : SupResult) (pp gp : PumpRun) : List Nat :=
  (if SupAction.startProxeePump ∈ r.actions then pp.copied else []) ++
    (if SupAction.startGuardianPump ∈ r.actions then gp.copied else [])

/-- Capacity of `feedback_chan`, from `make(chan WorkerFeedback, 5)`. -/
def feedbackChanCapacity : Nat := 5

/-- Whether an event is a verdict arriving on
`guardian_decision_chan`. -/
def isDecision : Event → Bool
  | Event.decision _ => true
  | Event.feedback _ => false

/-- Count of feedback messages the Client Reader sends. -/
def clientReaderFeedbackCount (reads : List ReadResult) : Nat :=
  (RunClientReader reads).countP fun a =>
    match a with
    | CRAction.sendFeedback _ => true
    | _ => false

/-- Total count of messages ever sent on `feedback_chan` during a
connection: the Client Reader's, the Stream Writer's, and — for each
Response Pump the Supervisor started — that pump's.  (The Guardian
Decision Reader sends on `guardian_decision_chan`, never on
`feedback_chan`.) -/
def totalFeedbackSends (reads : List ReadResult) (gO pO : List WriteRes)
    (buffers : List (List Nat)) (closed : Bool) (pp gp : PumpRun)
    (events : List Event) : Nat :=
  clientReaderFeedbackCount reads
    + (RunWriter ⟨true, true, gO, pO⟩ buffers closed).feedback.length
    + (if SupAction.startProxeePump ∈ (Handle events).actions
        then (pumpFeedback pp).length else 0)
    + (if SupAction.startGuardianPump ∈ (Handle events).actions
        then (pumpFeedback gp).length else 0)

/-- An event the accept loop of `main` receives: a client accepted on
`csock_chan`, or a connection id on `conn_closed_chan`. -/
inductive MainEvent where
  | accepted
  | connClosed (id : Nat)
deriving DecidableEq, Repr

/-- A mutation or start the accept loop performs: inserting a
connection in `conns`, starting its `Handle`, or deleting it from
`conns`. -/
inductive MainAction where
  | insertConn (id : Nat)
  | startHandle (id : Nat)
  | deleteConn (id : Nat)
deriving DecidableEq, Repr

/-- The accept loop of `main`, with `nconns` as the next id: on an
accepted socket it stores the connection in `conns` and then starts
`Handle`; on a `conn_closed_chan` id it deletes that entry.  These are
the only mutations of `conns` in the program. -/
def mainLoop : Nat → List MainEvent → List MainAction
  | _, [] => []
  | n, MainEvent.accepted :: es =>
    MainAction.insertConn n :: MainAction.startHandle n :: mainLoop (n + 1) es
  | n, MainEvent.connClosed i :: es =>
    MainAction.deleteConn i :: mainLoop n es

/-- The decision function exactly as claim C4 words it: any read error,
like a zero-length read, yields `GDError`; otherwise the byte decides. -/
def claimedGuardianDecision (r : GuardianRead) : GuardianDecision :=
  if r.err = true ∨ r.nread = 0 then GuardianDecision.GDError
  else if r.b = 103 then GuardianDecision.GDPassToGuardian
  else if r.b = 112 then GuardianDecision.GDPassToProxee
  else GuardianDecision.GDError

/-- The decision mapping the code actually computes, keyed only on the
byte count and the byte: the amended form of claim C4. -/
def decisionByteMap (r : GuardianRead) : GuardianDecision :=
  if r.nread = 0 then GuardianDecision.GDError
  else if r.b = 103 then GuardianDecision.GDPassToGuardian
  else if r.b = 112 then GuardianDecision.GDPassToProxee
  else GuardianDecision.GDError

/-- The io.Writer contract that each `Write` call accepts at most the
length of the slice it was handed: entry by entry along the offsets the
loop will reach. -/
def oracleFits (buffer : List Nat) : Nat → List WriteRes → Bool
  | _, [] => true
  | offset, w :: rest =>
    decide (offset + w.n ≤ buffer.length) && oracleFits buffer (offset + w.n) rest

example :
    RunWriter ⟨true, true, [⟨2, false⟩, ⟨1, false⟩, ⟨2, false⟩], [⟨3, false⟩, ⟨2, false⟩]⟩
      [[1, 2, 3], [4, 5]] true =
    ⟨[1, 2, 3, 4, 5], [1, 2, 3, 4, 5], [], WriterExit.channelClosed, true, true⟩ := by
  decide

example :
    Handle [Event.feedback WorkerFeedback.WFDoNotWriteToGuardian,
      Event.decision GuardianDecision.GDPassToGuardian] =
    ⟨true, SupAction.closePsock :: SupAction.startGuardianPump :: teardown, false, false⟩ := by
  decide

/-- A completed partial-write loop delivered exactly the remainder of
the buffer from its starting offset. -/
theorem writeLoop_completed_sent (oracle : List WriteRes) :
    ∀ (buffer : List Nat) (offset : Nat),
      (writeLoop buffer offset oracle).exit = LoopExit.completed →
      (writeLoop buffer offset oracle).sent = buffer.drop offset := by
  induction oracle with
  | nil =>
    intro buffer offset h
    by_cases hoff : offset = buffer.length
    · simp [writeLoop, hoff, List.drop_length]
    · simp [writeLoop, hoff] at h
  | cons w rest ih =>
    intro buffer offset h
    by_cases hoff : offset = buffer.length
    · simp [writeLoop, hoff, List.drop_length]
    · by_cases herr : w.err
      · simp [writeLoop, hoff, herr] at h
      · simp only [writeLoop, hoff, herr, if_false, if_neg hoff] at h ⊢
        simp only [Bool.false_eq_true, if_false] at h ⊢
        have hrec := ih buffer (offset + w.n) h
        rw [hrec]
        have hdd : buffer.drop (offset + w.n) = (buffer.drop offset).drop w.n := by
          rw [List.drop_drop, Nat.add_comm]
        rw [hdd, List.take_append_drop]

/-- Claim C9: the partial-write loops of the Stream Writer make no
progress on a zero-byte error-free write — such a call leaves the loop
state exactly where it was, so an unbroken run of zero-byte writes
never completes the buffer — while error-free writes of at least one
byte each (within the io.Writer contract) always complete it. -/
theorem writer_zero_write_stall :
    (∀ (buffer : List Nat) (offset : Nat) (rest : List WriteRes),
        offset ≠ buffer.length →
        writeLoop buffer offset (⟨0, false⟩ :: rest) = writeLoop buffer offset rest) ∧
    (∀ (buffer : List Nat) (offset k : Nat),
        offset ≠ buffer.length →
        (writeLoop buffer offset (List.replicate k ⟨0, false⟩)).exit = LoopExit.stuck) ∧
    (∀ (oracle : List WriteRes) (buffer : List Nat) (offset : Nat),
        (∀ w ∈ oracle, w.err = false ∧ 1 ≤ w.n) →
        oracleFits buffer offset oracle = true →
        offset ≤ buffer.length →
        buffer.length ≤ offset + oracle.length →
        (writeLoop buffer offset oracle).exit = LoopExit.completed) := by
  have hzero : ∀ (buffer : List Nat) (offset : Nat) (rest : List WriteRes),
      offset ≠ buffer.length →
      writeLoop buffer offset (⟨0, false⟩ :: rest) = writeLoop buffer offset rest := by
    intro buffer offset rest hoff
    simp [writeLoop, hoff]
  refine ⟨hzero, ?_, ?_⟩
  · intro buffer offset k hoff
    induction k with
    | zero => simp [writeLoop, hoff]
    | succ m ih =>
      rw [List.replicate_succ, hzero buffer offset _ hoff]
      exact ih
  · intro oracle
    induction oracle with
    | nil =>
      intro buffer offset _ _ hle hge
      have : offset = buffer.length := Nat.le_antisymm hle (by simpa using hge)
      simp [writeLoop, this]
    | cons w rest ih =>
      intro buffer offset hpos hfits hle hge
      by_cases hoff : offset = buffer.length
      · simp [writeLoop, hoff]
      · have hw := hpos w (by simp)
        simp only [writeLoop, hoff, if_neg hoff, hw.1, Bool.false_eq_true, if_false]
        simp only [oracleFits, Bool.and_eq_true, decide_eq_true_eq] at hfits
        exact ih buffer (offset + w.n)
          (fun v hv => hpos v (List.mem_cons_of_mem _ hv)) hfits.2 hfits.1
          (by
            have := hw.2
            simp only [List.length_cons] at hge
            omega)

/-- Witness for claim C9, at buffer `[9]` and offset `0`: a zero-byte
write is a no-op, three zero-byte writes in a row leave the loop
incomplete, and a single one-byte write completes it. -/
theorem writer_zero_write_stall_witness :
    writeLoop [9] 0 [⟨0, false⟩, ⟨1, false⟩] = writeLoop [9] 0 [⟨1, false⟩] ∧
    (writeLoop [9] 0 (List.replicate 3 ⟨0, false⟩)).exit = LoopExit.stuck ∧
    (writeLoop [9] 0 [⟨1, false⟩]).exit = LoopExit.completed :=
  ⟨writer_zero_write_stall.1 [9] 0 [⟨1, false⟩] (by decide),
    writer_zero_write_stall.2.1 [9] 0 3 (by decide),
    writer_zero_write_stall.2.2 [⟨1, false⟩] [9] 0 (by decide) (by decide) (by decide)
      (by decide)⟩

/-- Claim C10: when a client read delivers bytes together with an
error, the Client Reader first forwards exactly those bytes on
`client_buffers_chan` and only afterwards reports `WFFatalError` and
exits (closing the buffers channel) — the bytes are never dropped. -/
theorem client_reader_forwards_bytes_before_error (r : ReadResult)
    (rs : List ReadResult) (h1 : r.data.length ≠ 0) (h2 : r.err = true) :
    RunClientReader (r :: rs) =
      [CRAction.sendBuffer r.data, CRAction.sendFeedback WorkerFeedback.WFFatalError,
        CRAction.closeBuffersChan] := by
  simp [RunClientReader, h1, h2]

/-- Witness for claim C10: a read of `[1, 2]` accompanied by an error. -/
theorem client_reader_forwards_bytes_before_error_witness :
    RunClientReader [⟨[1, 2], true⟩] =
      [CRAction.sendBuffer [1, 2], CRAction.sendFeedback WorkerFeedback.WFFatalError,
        CRAction.closeBuffersChan] :=
  client_reader_forwards_bytes_before_error ⟨[1, 2], true⟩ [] (by decide) rfl

/-- Counterexample to claim C4 as stated: a guardian read that delivers
the byte 103 (ASCII g) together with a read error is mapped to
`GDPassToGuardian` by the code, not to the `GDError` the claim's
"or for a read error" clause demands. -/
theorem decision_reader_ignores_error_with_byte :
    RunGuardianDecisionReader ⟨1, 103, true⟩ = [GuardianDecision.GDPassToGuardian] ∧
    claimedGuardianDecision ⟨1, 103, true⟩ = GuardianDecision.GDError ∧
    GuardianDecision.GDPassToGuardian ≠ GuardianDecision.GDError := by
  decide

/-- Claim C4 as amended: the Guardian Decision Reader emits exactly one
decision, determined solely by the byte count and the byte — `GDError`
on a zero-length read (end-of-stream or an error before a byte
arrived), byte 103 to `GDPassToGuardian`, byte 112 to `GDPassToProxee`,
anything else to `GDError`; an error accompanying a successfully read
byte is ignored. -/
theorem decision_reader_byte_map (r : GuardianRead) :
    RunGuardianDecisionReader r = [decisionByteMap r] ∧
    (RunGuardianDecisionReader r).length = 1 := by
  unfold RunGuardianDecisionReader decisionByteMap
  split_ifs <;> simp

/-- Claim C1, evaluated at the failing input: the client sent one
chunk, the guardian write succeeded, and the proxee write returned an
error.  The Stream Writer stops (`proxeeError`) but sends nothing on
`feedback_chan`, so the Supervisor — which receives no event from it —
never terminates, performs no socket close and never notifies the
accept loop.  The connection does not end, contradicting the claim
(and the spec's stated intent that a proxee write failure is fatal). -/
theorem proxee_write_error_unreported :
    (RunWriter ⟨true, true, [⟨1, false⟩], [⟨0, true⟩]⟩ [[7]] false).exit =
      WriterExit.proxeeError ∧
    (RunWriter ⟨true, true, [⟨1, false⟩], [⟨0, true⟩]⟩ [[7]] false).feedback = [] ∧
    (Handle ((RunWriter ⟨true, true, [⟨1, false⟩], [⟨0, true⟩]⟩ [[7]] false).feedback.map
      Event.feedback)).terminated = false ∧
    (Handle ((RunWriter ⟨true, true, [⟨1, false⟩], [⟨0, true⟩]⟩ [[7]] false).feedback.map
      Event.feedback)).actions = [] := by
  decide

/-- On clean reads (bytes delivered, no error) the Client Reader's
trace is exactly one buffer send per read, in read order, with the
exact slices. -/
theorem RunClientReader_clean (reads : List ReadResult)
    (h : ∀ r ∈ reads, r.data.length ≠ 0 ∧ r.err = false) :
    RunClientReader reads = reads.map fun r => CRAction.sendBuffer r.data := by
  induction reads with
  | nil => rfl
  | cons r rs ih =>
    have hr := h r (by simp)
    simp only [RunClientReader, hr.1, hr.2, if_neg hr.1, Bool.false_eq_true, if_false,
      List.map_cons, List.cons.injEq, true_and]
    exact ih fun v hv => h v (List.mem_cons_of_mem _ hv)

/-- On clean reads the buffers handed to the Stream Writer are exactly
the read slices, in order. -/
theorem sentBuffers_clean (reads : List ReadResult)
    (h : ∀ r ∈ reads, r.data.length ≠ 0 ∧ r.err = false) :
    sentBuffers reads = reads.map fun r => r.data := by
  rw [sentBuffers, RunClientReader_clean reads h]
  clear h
  induction reads with
  | nil => rfl
  | cons r rs ih => simpa [List.filterMap_cons] using ih

/-- A Stream Writer run that consumed every buffer (it ended seeing the
channel closed, or blocked waiting for the next buffer) and sent no
feedback delivered every buffer to the guardian socket whole and in
order, starting with the guardian write flag set. -/
theorem RunWriter_guardian_mirror (buffers : List (List Nat)) :
    ∀ (st : WriterState) (closed : Bool), st.wg = true →
      (RunWriter st buffers closed).feedback = [] →
      ((RunWriter st buffers closed).exit = WriterExit.channelClosed ∨
        (RunWriter st buffers closed).exit = WriterExit.blocked) →
      (RunWriter st buffers closed).gBytes = buffers.flatten := by
  induction buffers with
  | nil =>
    intro st closed hwg _ _
    cases closed <;> simp [RunWriter, hwg]
  | cons buffer rest ih =>
    intro st closed hwg hfb hexit
    rcases hg : (writeLoop buffer 0 st.gOracle).exit with _ | _ | _
    · -- guardian loop completed
      rcases hp : (if st.wp = true then writeLoop buffer 0 st.pOracle
          else ⟨[], st.pOracle, LoopExit.completed⟩).exit with _ | _ | _
      · simp [RunWriter, hwg, hg, hp] at hfb hexit ⊢
        have hsent := writeLoop_completed_sent st.gOracle buffer 0 hg
        rw [List.drop_zero] at hsent
        rw [hsent]
        exact congrArg (fun t => buffer ++ t) (ih _ closed rfl hfb hexit)
      · simp [RunWriter, hwg, hg, hp] at hexit
      · simp [RunWriter, hwg, hg, hp] at hexit
    · -- guardian loop errored: feedback nonempty or a halting exit
      rcases hp : (if st.wp = true then writeLoop buffer 0 st.pOracle
          else ⟨[], st.pOracle, LoopExit.completed⟩).exit with _ | _ | _
      · simp [RunWriter, hwg, hg, hp] at hfb
      · simp [RunWriter, hwg, hg, hp] at hexit
      · simp [RunWriter, hwg, hg, hp] at hexit
    · -- guardian loop stuck: writer stalled, contradiction
      simp [RunWriter, hwg, hg] at hexit

/-- Claim C3: for clean client reads before a verdict, the Client
Reader forwards each read's exact slice in read order, and a Stream
Writer run that consumed them all without a write failure delivers to
the guardian socket exactly the concatenation of the client's chunks,
in order, from the first byte on. -/
theorem guardian_receives_exact_mirror (reads : List ReadResult)
    (gO pO : List WriteRes) (closed : Bool)
    (hreads : ∀ r ∈ reads, r.data.length ≠ 0 ∧ r.err = false)
    (hfb : (RunWriter ⟨true, true, gO, pO⟩ (sentBuffers reads) closed).feedback = [])
    (hexit : (RunWriter ⟨true, true, gO, pO⟩ (sentBuffers reads) closed).exit =
        WriterExit.channelClosed ∨
      (RunWriter ⟨true, true, gO, pO⟩ (sentBuffers reads) closed).exit =
        WriterExit.blocked) :
    sentBuffers reads = reads.map (fun r => r.data) ∧
    (RunWriter ⟨true, true, gO, pO⟩ (sentBuffers reads) closed).gBytes =
      (reads.map fun r => r.data).flatten := by
  refine ⟨sentBuffers_clean reads hreads, ?_⟩
  rw [← sentBuffers_clean reads hreads]
  exact RunWriter_guardian_mirror _ _ closed rfl hfb hexit

/-- Witness for claim C3: the client sends `[1,2,3]` then `[4,5]`; the
guardian socket accepts them across partial writes of 2, 1 and 2
bytes; the guardian receives `[1,2,3,4,5]`. -/
theorem guardian_receives_exact_mirror_witness :
    sentBuffers [⟨[1, 2, 3], false⟩, ⟨[4, 5], false⟩] =
      [[1, 2, 3], [4, 5]] ∧
    (RunWriter ⟨true, true, [⟨2, false⟩, ⟨1, false⟩, ⟨2, false⟩], [⟨3, false⟩, ⟨2, false⟩]⟩
      (sentBuffers [⟨[1, 2, 3], false⟩, ⟨[4, 5], false⟩]) true).gBytes =
      [1, 2, 3, 4, 5] :=
  guardian_receives_exact_mirror [⟨[1, 2, 3], false⟩, ⟨[4, 5], false⟩]
    [⟨2, false⟩, ⟨1, false⟩, ⟨2, false⟩] [⟨3, false⟩, ⟨2, false⟩] true
    (by decide) (by decide) (Or.inl (by decide))

/-- If the Supervisor's event loop is still running after the supplied
events, not both write flags are down (started from at least one flag
set): the loop returns the moment both are false. -/
theorem HandleLoop_running_flags (es : List Event) :
    ∀ wg wp : Bool, (wg = true ∨ wp = true) →
      (HandleLoop wg wp es).terminated = false →
      (HandleLoop wg wp es).wg = true ∨ (HandleLoop wg wp es).wp = true := by
  induction es with
  | nil => intro wg wp h _; exact h
  | cons e es ih =>
    intro wg wp h hterm
    rcases e with d | f
    · rcases d
      · exact absurd (show true = false from hterm) (by decide)
      · cases wp
        · exact absurd (show true = false from hterm) (by decide)
        · exact ih false true (Or.inr rfl) hterm
      · cases wg
        · exact absurd (show true = false from hterm) (by decide)
        · exact ih true false (Or.inl rfl) hterm
    · rcases f
      · exact absurd (show true = false from hterm) (by decide)
      · cases wp
        · exact absurd (show true = false from hterm) (by decide)
        · exact ih false true (Or.inr rfl) hterm

/-- The proxee write flag ends up false only if it started false or a
`GDPassToGuardian` verdict was among the events: the supervisor's
`GDPassToGuardian` branch is the only place the flag is cleared. -/
theorem HandleLoop_wp_false (es : List Event) :
    ∀ wg wp : Bool, (HandleLoop wg wp es).wp = false →
      wp = false ∨ Event.decision GuardianDecision.GDPassToGuardian ∈ es := by
  induction es with
  | nil => intro wg wp h; exact Or.inl h
  | cons e es ih =>
    intro wg wp h
    rcases e with d | f
    · rcases d
      · exact Or.inl h
      · cases wp
        · exact Or.inl rfl
        · rcases ih false true h with h1 | h1
          · exact absurd h1 (by decide)
          · exact Or.inr (List.mem_cons_of_mem _ h1)
      · exact Or.inr (List.mem_cons_self _ _)
    · rcases f
      · exact Or.inl h
      · cases wp
        · exact Or.inl rfl
        · rcases ih false true h with h1 | h1
          · exact absurd h1 (by decide)
          · exact Or.inr (List.mem_cons_of_mem _ h1)

/-- A terminated Supervisor run's action trace ends with the deferred
teardown: the three socket closes followed by the `conn_closed_chan`
notification, which is therefore the very last thing it does. -/
theorem HandleLoop_teardown_suffix (es : List Event) :
    ∀ wg wp : Bool, (HandleLoop wg wp es).terminated = true →
      ∃ l, (HandleLoop wg wp es).actions = l ++ teardown := by
  induction es with
  | nil => intro wg wp h; exact absurd (show false = true from h) (by decide)
  | cons e es ih =>
    intro wg wp h
    rcases e with d | f
    · rcases d
      · exact ⟨[], rfl⟩
      · cases wp
        · exact ⟨[SupAction.closeGsock, SupAction.startProxeePump], rfl⟩
        · rcases ih false true h with ⟨l, hl⟩
          refine ⟨SupAction.closeGsock :: SupAction.startProxeePump :: l, ?_⟩
          show SupAction.closeGsock :: SupAction.startProxeePump ::
            (HandleLoop false true es).actions = _
          rw [hl]
          rfl
      · cases wg
        · exact ⟨[SupAction.closePsock, SupAction.startGuardianPump], rfl⟩
        · rcases ih true false h with ⟨l, hl⟩
          refine ⟨SupAction.closePsock :: SupAction.startGuardianPump :: l, ?_⟩
          show SupAction.closePsock :: SupAction.startGuardianPump ::
            (HandleLoop true false es).actions = _
          rw [hl]
          rfl
    · rcases f
      · exact ⟨[], rfl⟩
      · cases wp
        · exact ⟨[], rfl⟩
        · rcases ih false true h with ⟨l, hl⟩
          exact ⟨l, hl⟩

/-- With no verdict among the events the Supervisor performs either
exactly the teardown (when some feedback terminated it) or nothing at
all (when the events ran out). -/
theorem HandleLoop_no_decision (es : List Event) :
    ∀ wg wp : Bool, es.countP isDecision = 0 →
      ((HandleLoop wg wp es).actions = teardown ∧
        (HandleLoop wg wp es).terminated = true) ∨
      ((HandleLoop wg wp es).actions = [] ∧
        (HandleLoop wg wp es).terminated = false) := by
  induction es with
  | nil => intro wg wp _; exact Or.inr ⟨rfl, rfl⟩
  | cons e es ih =>
    intro wg wp hc
    rcases e with d | f
    · exact absurd hc (by simp [List.countP_cons, isDecision])
    · have hc' : es.countP isDecision = 0 := by
        simpa [List.countP_cons, isDecision] using hc
      rcases f
      · exact Or.inl ⟨rfl, rfl⟩
      · cases wp
        · exact Or.inl ⟨rfl, rfl⟩
        · exact ih false true hc'

/-- With every verdict among the events being `GDError`, the Supervisor
never starts a Response Pump, and if the `GDError` verdict is actually
among the events the loop terminates. -/
theorem HandleLoop_error_only (es : List Event) :
    ∀ wg wp : Bool,
      (∀ d, Event.decision d ∈ es → d = GuardianDecision.GDError) →
      (SupAction.startProxeePump ∉ (HandleLoop wg wp es).actions ∧
        SupAction.startGuardianPump ∉ (HandleLoop wg wp es).actions) ∧
      (Event.decision GuardianDecision.GDError ∈ es →
        (HandleLoop wg wp es).terminated = true) := by
  induction es with
  | nil =>
    intro wg wp _
    exact ⟨⟨(by decide : SupAction.startProxeePump ∉ ([] : List SupAction)),
      (by decide : SupAction.startGuardianPump ∉ ([] : List SupAction))⟩,
      fun hm => absurd hm (List.not_mem_nil _)⟩
  | cons e es ih =>
    intro wg wp h
    rcases e with d | f
    · rcases d
      · exact ⟨⟨(by decide : SupAction.startProxeePump ∉ teardown),
          (by decide : SupAction.startGuardianPump ∉ teardown)⟩, fun _ => rfl⟩
      · exact absurd (h GuardianDecision.GDPassToProxee (List.mem_cons_self _ _)) (by decide)
      · exact absurd (h GuardianDecision.GDPassToGuardian (List.mem_cons_self _ _)) (by decide)
    · have h' : ∀ d, Event.decision d ∈ es → d = GuardianDecision.GDError :=
        fun d hd => h d (List.mem_cons_of_mem _ hd)
      rcases f
      · exact ⟨⟨(by decide : SupAction.startProxeePump ∉ teardown),
          (by decide : SupAction.startGuardianPump ∉ teardown)⟩, fun _ => rfl⟩
      · cases wp
        · exact ⟨⟨(by decide : SupAction.startProxeePump ∉ teardown),
            (by decide : SupAction.startGuardianPump ∉ teardown)⟩, fun _ => rfl⟩
        · have hih := ih false true h'
          refine ⟨hih.1, fun hmem => ?_⟩
          have hm : Event.decision GuardianDecision.GDError ∈ es := by
            rcases List.mem_cons.1 hmem with habs | hm
            · exact absurd habs (by decide)
            · exact hm
          exact hih.2 hm

/-- With at most one verdict among the events, the Supervisor never
starts both Response Pumps. -/
theorem HandleLoop_pumps (es : List Event) :
    ∀ wg wp : Bool, es.countP isDecision ≤ 1 →
      ¬(SupAction.startProxeePump ∈ (HandleLoop wg wp es).actions ∧
        SupAction.startGuardianPump ∈ (HandleLoop wg wp es).actions) := by
  induction es with
  | nil =>
    intro wg wp _
    exact (by decide : ¬(SupAction.startProxeePump ∈ ([] : List SupAction) ∧
      SupAction.startGuardianPump ∈ ([] : List SupAction)))
  | cons e es ih =>
    intro wg wp hc
    rcases e with d | f
    · have hc' : es.countP isDecision = 0 := by
        simp only [List.countP_cons, isDecision, if_true] at hc
        omega
      rcases d
      · exact (by decide : ¬(SupAction.startProxeePump ∈ teardown ∧
          SupAction.startGuardianPump ∈ teardown))
      · cases wp
        · exact (by decide : ¬(SupAction.startProxeePump ∈
            SupAction.closeGsock :: SupAction.startProxeePump :: teardown ∧
            SupAction.startGuardianPump ∈
            SupAction.closeGsock :: SupAction.startProxeePump :: teardown))
        · rintro ⟨_, h2⟩
          have h2' : SupAction.startGuardianPump ∈
              SupAction.closeGsock :: SupAction.startProxeePump ::
                (HandleLoop false true es).actions := h2
          rcases HandleLoop_no_decision es false true hc' with ⟨ha, _⟩ | ⟨ha, _⟩ <;>
            rw [ha] at h2' <;> exact absurd h2' (by decide)
      · cases wg
        · exact (by decide : ¬(SupAction.startProxeePump ∈
            SupAction.closePsock :: SupAction.startGuardianPump :: teardown ∧
            SupAction.startGuardianPump ∈
            SupAction.closePsock :: SupAction.startGuardianPump :: teardown))
        · rintro ⟨h1, _⟩
          have h1' : SupAction.startProxeePump ∈
              SupAction.closePsock :: SupAction.startGuardianPump ::
                (HandleLoop true false es).actions := h1
          rcases HandleLoop_no_decision es true false hc' with ⟨ha, _⟩ | ⟨ha, _⟩ <;>
            rw [ha] at h1' <;> exact absurd h1' (by decide)
    · have hc' : es.countP isDecision ≤ 1 := by
        simpa [List.countP_cons, isDecision] using hc
      rcases f
      · exact (by decide : ¬(SupAction.startProxeePump ∈ teardown ∧
          SupAction.startGuardianPump ∈ teardown))
      · cases wp
        · exact (by decide : ¬(SupAction.startProxeePump ∈ teardown ∧
            SupAction.startGuardianPump ∈ teardown))
        · exact ih false true hc'

/-- Close counts of the plain teardown trace. -/
theorem countsTeardown :
    teardown.count SupAction.closeCsock = 1 ∧
    1 ≤ teardown.count SupAction.closeGsock ∧
    teardown.count SupAction.closeGsock ≤ 2 ∧
    1 ≤ teardown.count SupAction.closePsock ∧
    teardown.count SupAction.closePsock ≤ 2 := by
  decide

/-- Close counts when the proxee verdict immediately terminates the
loop: the guardian socket is closed twice. -/
theorem countsProxeeVerdict :
    (SupAction.closeGsock :: SupAction.startProxeePump :: teardown).count
      SupAction.closeCsock = 1 ∧
    1 ≤ (SupAction.closeGsock :: SupAction.startProxeePump :: teardown).count
      SupAction.closeGsock ∧
    (SupAction.closeGsock :: SupAction.startProxeePump :: teardown).count
      SupAction.closeGsock ≤ 2 ∧
    1 ≤ (SupAction.closeGsock :: SupAction.startProxeePump :: teardown).count
      SupAction.closePsock ∧
    (SupAction.closeGsock :: SupAction.startProxeePump :: teardown).count
      SupAction.closePsock ≤ 2 := by
  decide

/-- Close counts when the guardian verdict immediately terminates the
loop: the proxee socket is closed twice. -/
theorem countsGuardianVerdict :
    (SupAction.closePsock :: SupAction.startGuardianPump :: teardown).count
      SupAction.closeCsock = 1 ∧
    1 ≤ (SupAction.closePsock :: SupAction.startGuardianPump :: teardown).count
      SupAction.closeGsock ∧
    (SupAction.closePsock :: SupAction.startGuardianPump :: teardown).count
      SupAction.closeGsock ≤ 2 ∧
    1 ≤ (SupAction.closePsock :: SupAction.startGuardianPump :: teardown).count
      SupAction.closePsock ∧
    (SupAction.closePsock :: SupAction.startGuardianPump :: teardown).count
      SupAction.closePsock ≤ 2 := by
  decide

/-- With at most one verdict, a terminated Supervisor run closed the
client socket exactly once and each backend socket once or twice. -/
theorem HandleLoop_close_counts (es : List Event) :
    ∀ wg wp : Bool, es.countP isDecision ≤ 1 →
      (HandleLoop wg wp es).terminated = true →
      (HandleLoop wg wp es).actions.count SupAction.closeCsock = 1 ∧
      1 ≤ (HandleLoop wg wp es).actions.count SupAction.closeGsock ∧
      (HandleLoop wg wp es).actions.count SupAction.closeGsock ≤ 2 ∧
      1 ≤ (HandleLoop wg wp es).actions.count SupAction.closePsock ∧
      (HandleLoop wg wp es).actions.count SupAction.closePsock ≤ 2 := by
  induction es with
  | nil => intro wg wp _ hterm; exact absurd (show false = true from hterm) (by decide)
  | cons e es ih =>
    intro wg wp hc hterm
    rcases e with d | f
    · have hc' : es.countP isDecision = 0 := by
        simp only [List.countP_cons, isDecision, if_true] at hc
        omega
      rcases d
      · exact countsTeardown
      · cases wp
        · exact countsProxeeVerdict
        · have hterm' : (HandleLoop false true es).terminated = true := hterm
          rcases HandleLoop_no_decision es false true hc' with ⟨ha, _⟩ | ⟨_, ht⟩
          · have hact : (HandleLoop wg true
                (Event.decision GuardianDecision.GDPassToProxee :: es)).actions =
                SupAction.closeGsock :: SupAction.startProxeePump :: teardown := by
              show SupAction.closeGsock :: SupAction.startProxeePump ::
                (HandleLoop false true es).actions = _
              rw [ha]
            rw [hact]
            decide
          · rw [ht] at hterm'
            exact absurd hterm' (by decide)
      · cases wg
        · exact countsGuardianVerdict
        · have hterm' : (HandleLoop true false es).terminated = true := hterm
          rcases HandleLoop_no_decision es true false hc' with ⟨ha, _⟩ | ⟨_, ht⟩
          · have hact : (HandleLoop true wp
                (Event.decision GuardianDecision.GDPassToGuardian :: es)).actions =
                SupAction.closePsock :: SupAction.startGuardianPump :: teardown := by
              show SupAction.closePsock :: SupAction.startGuardianPump ::
                (HandleLoop true false es).actions = _
              rw [ha]
            rw [hact]
            decide
          · rw [ht] at hterm'
            exact absurd hterm' (by decide)
    · have hc' : es.countP isDecision ≤ 1 := by
        simpa [List.countP_cons, isDecision] using hc
      rcases f
      · exact countsTeardown
      · cases wp
        · exact countsTeardown
        · exact ih false true hc' hterm

/-- A Stream Writer whose guardian write flag is down sends no feedback
at all: only the guardian branch of `RunWriter` ever reports. -/
theorem RunWriter_feedback_nil (buffers : List (List Nat)) :
    ∀ (wp : Bool) (gO pO : List WriteRes) (closed : Bool),
      (RunWriter ⟨false, wp, gO, pO⟩ buffers closed).feedback = [] := by
  induction buffers with
  | nil =>
    intro wp gO pO closed
    cases wp <;> cases closed <;> simp [RunWriter]
  | cons buffer rest ih =>
    intro wp gO pO closed
    cases wp
    · simp [RunWriter]
    · rcases hp : (writeLoop buffer 0 pO).exit with _ | _ | _
      · simp [RunWriter, hp]
        exact ih true gO (writeLoop buffer 0 pO).rest closed
      · simp [RunWriter, hp]
      · simp [RunWriter, hp]

/-- A Stream Writer run sends at most one feedback message: once the
guardian branch has reported, its flag is down and it never reports
again, and the proxee branch never reports. -/
theorem RunWriter_feedback_len (buffers : List (List Nat)) :
    ∀ (st : WriterState) (closed : Bool),
      (RunWriter st buffers closed).feedback.length ≤ 1 := by
  induction buffers with
  | nil =>
    rintro ⟨wg, wp, gO, pO⟩ closed
    cases wg <;> cases wp <;> cases closed <;> simp [RunWriter]
  | cons buffer rest ih =>
    rintro ⟨wg, wp, gO, pO⟩ closed
    cases wg
    · simp [RunWriter_feedback_nil (buffer :: rest) wp gO pO closed]
    · cases wp
      · rcases hg : (writeLoop buffer 0 gO).exit with _ | _ | _
        · simp [RunWriter, hg]
          exact ih _ closed
        · simp [RunWriter, hg, RunWriter_feedback_nil rest]
        · simp [RunWriter, hg]
      · rcases hg : (writeLoop buffer 0 gO).exit with _ | _ | _
        · rcases hp : (writeLoop buffer 0 pO).exit with _ | _ | _
          · simp [RunWriter, hg, hp]
            exact ih _ closed
          · simp [RunWriter, hg, hp]
          · simp [RunWriter, hg, hp]
        · rcases hp : (writeLoop buffer 0 pO).exit with _ | _ | _
          · simp [RunWriter, hg, hp, RunWriter_feedback_nil rest]
          · simp [RunWriter, hg, hp]
          · simp [RunWriter, hg, hp]
        · simp [RunWriter, hg]

/-- The Client Reader sends at most one feedback message: each of its
two reporting paths returns immediately after reporting. -/
theorem clientReaderFeedbackCount_le_one (reads : List ReadResult) :
    clientReaderFeedbackCount reads ≤ 1 := by
  induction reads with
  | nil => simp [clientReaderFeedbackCount, RunClientReader]
  | cons r rs ih =>
    by_cases h0 : r.data.length = 0
    · simp [clientReaderFeedbackCount, RunClientReader, h0]
    · by_cases herr : r.err
      · simp [clientReaderFeedbackCount, RunClientReader, h0, herr]
      · simpa [clientReaderFeedbackCount, RunClientReader, h0, herr,
          List.countP_cons] using ih

/-- Claim C2: when the guardian's first byte is neither p (112) nor g
(103), or its verdict read yields end-of-stream or an error before one
byte arrives, the Decision Reader emits `GDError`; and a run whose
verdicts are all `GDError`, one of which arrives, terminates without
ever starting a Response Pump and with zero bytes written to the
client socket. -/
theorem failed_verdict_closes_without_output :
    (∀ r : GuardianRead, r.nread = 0 ∨ (r.b ≠ 103 ∧ r.b ≠ 112) →
        RunGuardianDecisionReader r = [GuardianDecision.GDError]) ∧
    (∀ (events : List Event) (pp gp : PumpRun),
        (∀ d, Event.decision d ∈ events → d = GuardianDecision.GDError) →
        Event.decision GuardianDecision.GDError ∈ events →
        (Handle events).terminated = true ∧
        SupAction.startProxeePump ∉ (Handle events).actions ∧
        SupAction.startGuardianPump ∉ (Handle events).actions ∧
        clientBytes (Handle events) pp gp = []) := by
  constructor
  · intro r h
    rcases h with h | ⟨h1, h2⟩
    · simp [RunGuardianDecisionReader, h]
    · by_cases hn : r.nread = 0
      · simp [RunGuardianDecisionReader, hn]
      · simp [RunGuardianDecisionReader, hn, h1, h2]
  · intro events pp gp hall hmem
    have h1 := HandleLoop_error_only events true true hall
    refine ⟨h1.2 hmem, h1.1.1, h1.1.2, ?_⟩
    simp [clientBytes, Handle, h1.1.1, h1.1.2]

/-- Witness for claim C2: the guardian sends the byte 120 (not a valid
verdict); the Supervisor run on the resulting `GDError` terminates with
no pump and no client bytes. -/
theorem failed_verdict_closes_without_output_witness :
    RunGuardianDecisionReader ⟨1, 120, false⟩ = [GuardianDecision.GDError] ∧
    ((Handle [Event.decision GuardianDecision.GDError]).terminated = true ∧
      SupAction.startProxeePump ∉
        (Handle [Event.decision GuardianDecision.GDError]).actions ∧
      SupAction.startGuardianPump ∉
        (Handle [Event.decision GuardianDecision.GDError]).actions ∧
      clientBytes (Handle [Event.decision GuardianDecision.GDError])
        ⟨[9], false⟩ ⟨[8], false⟩ = []) :=
  ⟨failed_verdict_closes_without_output.1 ⟨1, 120, false⟩ (Or.inr (by decide)),
    failed_verdict_closes_without_output.2 [Event.decision GuardianDecision.GDError]
      ⟨[9], false⟩ ⟨[8], false⟩ (by intro d hd; simpa using hd) (by decide)⟩

/-- Counterexample to claim C5 as stated: in the run where the guardian
write path degrades (`WFDoNotWriteToGuardian`) and the guardian then
delivers the `GDPassToGuardian` verdict, the Supervisor reaches the
state with both write flags false and terminates — yet a decision did
arrive, refuting "only reachable when no decision ever arrived". -/
theorem both_flags_false_with_verdict :
    (Handle [Event.feedback WorkerFeedback.WFDoNotWriteToGuardian,
      Event.decision GuardianDecision.GDPassToGuardian]).terminated = true ∧
    (Handle [Event.feedback WorkerFeedback.WFDoNotWriteToGuardian,
      Event.decision GuardianDecision.GDPassToGuardian]).wg = false ∧
    (Handle [Event.feedback WorkerFeedback.WFDoNotWriteToGuardian,
      Event.decision GuardianDecision.GDPassToGuardian]).wp = false ∧
    Event.decision GuardianDecision.GDPassToGuardian ∈
      [Event.feedback WorkerFeedback.WFDoNotWriteToGuardian,
        Event.decision GuardianDecision.GDPassToGuardian] := by
  decide

/-- Claim C5 as amended: after each event, if both write flags are
false the connection terminates; and the state with both flags false is
only reachable in runs where the guardian delivered the
`GDPassToGuardian` verdict (not, as claimed, in runs with no
decision). -/
theorem both_flags_false_terminates_and_needs_verdict (events : List Event) :
    ((Handle events).terminated = false →
      (Handle events).wg = true ∨ (Handle events).wp = true) ∧
    ((Handle events).wg = false ∧ (Handle events).wp = false →
      Event.decision GuardianDecision.GDPassToGuardian ∈ events) := by
  constructor
  · exact fun h => HandleLoop_running_flags events true true (Or.inl rfl) h
  · rintro ⟨_, hwp⟩
    rcases HandleLoop_wp_false events true true hwp with h | h
    · exact absurd h (by decide)
    · exact h

/-- Witness for claim C5 as amended, at the empty run (loop still
blocked, flags intact) and at the degrade-then-guardian-verdict run. -/
theorem both_flags_false_terminates_and_needs_verdict_witness :
    ((Handle []).wg = true ∨ (Handle []).wp = true) ∧
    Event.decision GuardianDecision.GDPassToGuardian ∈
      [Event.feedback WorkerFeedback.WFDoNotWriteToGuardian,
        Event.decision GuardianDecision.GDPassToGuardian] :=
  ⟨(both_flags_false_terminates_and_needs_verdict []).1 rfl,
    (both_flags_false_terminates_and_needs_verdict
      [Event.feedback WorkerFeedback.WFDoNotWriteToGuardian,
        Event.decision GuardianDecision.GDPassToGuardian]).2 (by decide)⟩

/-- Counterexample to claim C6 as stated: after a `GDPassToProxee`
verdict the Supervisor closes the guardian socket in the event loop and
its deferred teardown closes it again — two closes, not exactly one. -/
theorem losing_socket_closed_twice :
    (Handle [Event.decision GuardianDecision.GDPassToProxee,
      Event.feedback WorkerFeedback.WFFatalError]).terminated = true ∧
    (Handle [Event.decision GuardianDecision.GDPassToProxee,
      Event.feedback WorkerFeedback.WFFatalError]).actions.count
      SupAction.closeGsock = 2 := by
  decide

/-- Claim C6 as amended: when the Supervisor terminates (with at most
one verdict delivered, as the Decision Reader guarantees) it closes the
client socket exactly once and each backend socket at least once and at
most twice — the losing backend's socket is the one closed twice, and
`Close` is idempotent, so no socket is left unclosed. -/
theorem sockets_closed_at_least_once (events : List Event)
    (hdec : events.countP isDecision ≤ 1)
    (hterm : (Handle events).terminated = true) :
    (Handle events).actions.count SupAction.closeCsock = 1 ∧
    1 ≤ (Handle events).actions.count SupAction.closeGsock ∧
    (Handle events).actions.count SupAction.closeGsock ≤ 2 ∧
    1 ≤ (Handle events).actions.count SupAction.closePsock ∧
    (Handle events).actions.count SupAction.closePsock ≤ 2 :=
  HandleLoop_close_counts events true true hdec hterm

/-- Witness for claim C6 as amended, at the proxee-verdict-then-fatal
run. -/
theorem sockets_closed_at_least_once_witness :
    (Handle [Event.decision GuardianDecision.GDPassToProxee,
      Event.feedback WorkerFeedback.WFFatalError]).actions.count
      SupAction.closeCsock = 1 ∧
    1 ≤ (Handle [Event.decision GuardianDecision.GDPassToProxee,
      Event.feedback WorkerFeedback.WFFatalError]).actions.count
      SupAction.closeGsock ∧
    (Handle [Event.decision GuardianDecision.GDPassToProxee,
      Event.feedback WorkerFeedback.WFFatalError]).actions.count
      SupAction.closeGsock ≤ 2 ∧
    1 ≤ (Handle [Event.decision GuardianDecision.GDPassToProxee,
      Event.feedback WorkerFeedback.WFFatalError]).actions.count
      SupAction.closePsock ∧
    (Handle [Event.decision GuardianDecision.GDPassToProxee,
      Event.feedback WorkerFeedback.WFFatalError]).actions.count
      SupAction.closePsock ≤ 2 :=
  sockets_closed_at_least_once
    [Event.decision GuardianDecision.GDPassToProxee,
      Event.feedback WorkerFeedback.WFFatalError] (by decide) (by decide)

/-- Claim C7: in the accept loop every connection's registry insertion
immediately precedes the start of its `Handle`; a registry deletion
happens only in response to a `conn_closed_chan` notification; and a
terminating Supervisor's very last action, after its socket closes, is
that notification — so insertion precedes Supervisor start, removal
follows Supervisor return, and every registry mutation is performed by
the accept loop alone (the only registry-mutating code in the model). -/
theorem registry_serialized_through_accept_loop :
    (∀ (n : Nat) (es : List MainEvent) (i : Nat),
        MainAction.startHandle i ∈ mainLoop n es →
        ∃ l1 l2, mainLoop n es =
          l1 ++ MainAction.insertConn i :: MainAction.startHandle i :: l2) ∧
    (∀ (n : Nat) (es : List MainEvent) (i : Nat),
        MainAction.deleteConn i ∈ mainLoop n es → MainEvent.connClosed i ∈ es) ∧
    (∀ events : List Event, (Handle events).terminated = true →
        ∃ l, (Handle events).actions = l ++ teardown) := by
  refine ⟨?_, ?_, ?_⟩
  · intro n es
    induction es generalizing n with
    | nil => intro i h; simp [mainLoop] at h
    | cons e es ih =>
      intro i h
      rcases e with _ | j
      · simp only [mainLoop, List.mem_cons] at h
        rcases h with h1 | h1 | h1
        · exact absurd h1 (by simp)
        · have hin : i = n := by simpa using h1
          subst hin
          exact ⟨[], mainLoop (i + 1) es, rfl⟩
        · rcases ih (n + 1) i h1 with ⟨l1, l2, hl⟩
          exact ⟨MainAction.insertConn n :: MainAction.startHandle n :: l1, l2, by
            simp [mainLoop, hl]⟩
      · simp only [mainLoop, List.mem_cons] at h
        rcases h with h1 | h1
        · exact absurd h1 (by simp)
        · rcases ih n i h1 with ⟨l1, l2, hl⟩
          exact ⟨MainAction.deleteConn j :: l1, l2, by simp [mainLoop, hl]⟩
  · intro n es
    induction es generalizing n with
    | nil => intro i h; simp [mainLoop] at h
    | cons e es ih =>
      intro i h
      rcases e with _ | j
      · simp only [mainLoop, List.mem_cons] at h
        rcases h with h1 | h1 | h1
        · exact absurd h1 (by simp)
        · exact absurd h1 (by simp)
        · exact List.mem_cons_of_mem _ (ih (n + 1) i h1)
      · simp only [mainLoop, List.mem_cons] at h
        rcases h with h1 | h1
        · have hij : i = j := by simpa using h1
          subst hij
          exact List.mem_cons_self _ _
        · exact List.mem_cons_of_mem _ (ih n i h1)
  · intro events hterm
    exact HandleLoop_teardown_suffix events true true hterm

/-- Witness for claim C7: one accepted connection with id 0 whose
Supervisor later notifies, and a terminating Supervisor run. -/
theorem registry_serialized_through_accept_loop_witness :
    (∃ l1 l2, mainLoop 0 [MainEvent.accepted, MainEvent.connClosed 0] =
      l1 ++ MainAction.insertConn 0 :: MainAction.startHandle 0 :: l2) ∧
    MainEvent.connClosed 0 ∈ [MainEvent.accepted, MainEvent.connClosed 0] ∧
    ∃ l, (Handle [Event.decision GuardianDecision.GDError]).actions =
      l ++ teardown :=
  ⟨registry_serialized_through_accept_loop.1 0
      [MainEvent.accepted, MainEvent.connClosed 0] 0 (by decide),
    registry_serialized_through_accept_loop.2.1 0
      [MainEvent.accepted, MainEvent.connClosed 0] 0 (by decide),
    registry_serialized_through_accept_loop.2.2
      [Event.decision GuardianDecision.GDError] (by decide)⟩

/-- Claim C8: across a whole connection (client reader, stream writer
started with both flags set, the decision reader — which never reports
on the feedback channel — and the at most one pump the Supervisor
starts), the total number of messages ever sent on `feedback_chan` is
at most its buffer capacity of 5, so no worker can block reporting
after the Supervisor has decided to exit. -/
theorem feedback_channel_bounded (reads : List ReadResult) (gO pO : List WriteRes)
    (buffers : List (List Nat)) (closed : Bool) (pp gp : PumpRun)
    (events : List Event) (hdec : events.countP isDecision ≤ 1) :
    totalFeedbackSends reads gO pO buffers closed pp gp events ≤
      feedbackChanCapacity := by
  have h1 := clientReaderFeedbackCount_le_one reads
  have h2 := RunWriter_feedback_len buffers ⟨true, true, gO, pO⟩ closed
  have h3 := HandleLoop_pumps events true true hdec
  have h4 : (pumpFeedback pp).length ≤ 1 := by
    by_cases hp : pp.err <;> simp [pumpFeedback, hp]
  have h5 : (pumpFeedback gp).length ≤ 1 := by
    by_cases hp : gp.err <;> simp [pumpFeedback, hp]
  unfold totalFeedbackSends feedbackChanCapacity
  by_cases hA : SupAction.startProxeePump ∈ (Handle events).actions
  · have hB : SupAction.startGuardianPump ∉ (Handle events).actions :=
      fun hB => h3 ⟨hA, hB⟩
    simp only [hA, hB, if_true, if_false, ite_true, ite_false]
    omega
  · by_cases hB : SupAction.startGuardianPump ∈ (Handle events).actions
    · simp only [hA, hB, if_true, if_false, ite_true, ite_false]
      omega
    · simp only [hA, hB, if_true, if_false, ite_true, ite_false]
      omega

/-- Witness for claim C8: a client disconnect (one feedback), no
verdict, an erroring pump that is never started. -/
theorem feedback_channel_bounded_witness :
    totalFeedbackSends [⟨[], false⟩] [] [] [] false ⟨[], true⟩ ⟨[], true⟩
      [Event.decision GuardianDecision.GDPassToProxee] ≤ feedbackChanCapacity :=
  feedback_channel_bounded [⟨[], false⟩] [] [] [] false ⟨[], true⟩ ⟨[], true⟩
    [Event.decision GuardianDecision.GDPassToProxee] (by decide)

end Chaperoned
